import Mathlib

/-!
# Verification of the teamapp-frontend-react client core

A shallow embedding of the client's session / HTTP-retry / task-cache logic:

* `src/services/api.ts` — `ApiService`: `executeRequest` (401 refresh-and-retry),
  `refreshTokens` (single-flight refresh with subscriber queue), `logout`,
  `getTasks`, `getUsers`, `getOrCreateDefaultProjectId`, the status-vocabulary
  mappings `mapStatusToApi` / `mapStatusFromApi`, and `mapTaskFromApi`.
* `src/contexts/TaskContext.tsx` — the WebSocket task-cache handlers
  (`onTaskCreated`, `onTaskUpdated`, `onTaskDeleted`).
* the auth provider — `AuthProvider.initializeAuth` (modelled as `initAuth`).

`localStorage` is modelled as an association list of string keys and values;
the remote API is modelled as an environment supplying each endpoint's
response.  JavaScript truthiness of `getItem` results (`null` and `""` are
falsy) is modelled by `truthy`.
-/

namespace TeamApp

/-- Substring occurrence on character lists, used to model
`String.prototype.includes`. -/
def listContainsSub (p : List Char) : List Char → Bool
  | [] => p.isEmpty
  | c :: t => p.isPrefixOf (c :: t) || listContainsSub p t

/-- JS `String.prototype.includes`: `true` iff `pat` occurs in `s`
(the empty pattern always occurs). -/
def jsIncludes (s pat : String) : Bool :=
  listContainsSub pat.data s.data

/-- JS truthiness of a `localStorage.getItem` result: `null` (here `none`)
and the empty string are falsy, every other string is truthy. -/
def truthy : Option String → Bool
  | none => false
  | some s => s ≠ ""

/-- `fetch`'s `response.ok`: status in the range 200–299. -/
def statusOk (status : Nat) : Bool :=
  decide (200 ≤ status ∧ status < 300)

/-- Decimal value of a digit string. -/
def decimalVal (l : List Char) : Nat :=
  l.foldl (fun acc c => acc * 10 + (c.toNat - 48)) 0

/-- Whether a character list is a non-empty run of decimal digits. -/
def isDigits (l : List Char) : Bool :=
  !l.isEmpty && l.all (fun c => 48 ≤ c.toNat && c.toNat ≤ 57)

/-- JS `Number(s)` restricted to the decimal-numeral strings this client
actually stores (`String(id)` of a numeric id); non-numerals are collapsed
to 0 (the source would produce `NaN`, which never occurs on stored ids). -/
def jsNumber (s : String) : Nat :=
  if isDigits s.data then decimalVal s.data else 0

/-! ## Token Store (`localStorage`) -/

/-- `localStorage` model: an association list with at most one entry per key
(maintained by `setItem`). -/
abbrev Store := List (String × String)

/-- `localStorage.getItem`. -/
def getItem (st : Store) (k : String) : Option String :=
  (st.find? (fun p => p.1 = k)).map (fun p => p.2)

/-- `localStorage.setItem`: overwrite in place, else append. -/
def setItem (st : Store) (k v : String) : Store :=
  if st.any (fun p => p.1 = k) then
    st.map (fun p => if p.1 = k then (k, v) else p)
  else
    st ++ [(k, v)]

/-- `localStorage.removeItem`. -/
def removeItem (st : Store) (k : String) : Store :=
  st.filter (fun p => p.1 ≠ k)

/-- `STORAGE_KEYS.AUTH_TOKEN` (src/utils/constants.ts). -/
def AUTH_TOKEN : String := "auth_token"

/-- `STORAGE_KEYS.REFRESH_TOKEN` (src/utils/constants.ts). -/
def REFRESH_TOKEN : String := "refresh_token"

/-- `STORAGE_KEYS.USER_DATA` (src/utils/constants.ts). -/
def USER_DATA : String := "user_data"

/-- The memoization key of `getOrCreateDefaultProjectId` (src/services/api.ts). -/
def DEFAULT_PROJECT_KEY : String := "default_project_id"

/-- `ApiService.logout` (src/services/api.ts lines 206–210): remove the three
session keys from storage. -/
def logoutStore (st : Store) : Store :=
  removeItem (removeItem (removeItem st AUTH_TOKEN) REFRESH_TOKEN) USER_DATA

/-! ## Status vocabulary mappings -/

/-- `ApiService.mapStatusToApi` (src/services/api.ts lines 324–335): UI label
to snake_case API value; the switch has a `default` arm returning `"todo"`. -/
def mapStatusToApi (status : String) : String :=
  if status = "To Do" then "todo"
  else if status = "In Progress" then "in_progress"
  else if status = "Done" then "done"
  else "todo"

/-- `ApiService.mapStatusFromApi` (src/services/api.ts lines 370–379):
snake_case API value to UI label.  The switch has no `default` arm, so at
runtime an unrecognised string falls through every case and the function
returns `undefined`, modelled as `none`. -/
def mapStatusFromApi (status : String) : Option String :=
  if status = "todo" then some "To Do"
  else if status = "in_progress" then some "In Progress"
  else if status = "done" then some "Done"
  else none

/-! ## Tasks and `mapTaskFromApi` -/

/-- The fields of a raw API task that `mapTaskFromApi` reads.
`project_creator_id` stands for `apiTask.project?.creator?.id`. -/
structure ApiTask where
  id : Nat
  title : String
  description : Option String
  status : String
  assignee_id : Option Nat
  project_id : Nat
  project_creator_id : Option Nat
  created_at : String
  updated_at : Option String
deriving DecidableEq

/-- The UI `Task` shape produced by `mapTaskFromApi`.  `status` is `Option`
because `mapStatusFromApi` can return `undefined` (see above). -/
structure Task where
  id : String
  title : String
  description : String
  status : Option String
  priority : String
  assigneeId : Option String
  createdById : String
  createdAt : String
  updatedAt : Option String
  tags : List String
deriving DecidableEq

/-- `ApiService.mapTaskFromApi` (src/services/api.ts lines 381–397). -/
def mapTaskFromApi (apiTask : ApiTask) : Task :=
  { id := toString apiTask.id
    title := apiTask.title
    description := apiTask.description.getD ""
    status := mapStatusFromApi apiTask.status
    priority := "Medium"
    assigneeId := apiTask.assignee_id.map toString
    createdById :=
      match apiTask.project_creator_id with
      | some cid => toString cid
      | none => toString apiTask.project_id
    createdAt := apiTask.created_at
    updatedAt := apiTask.updated_at
    tags := [] }

/-! ## Task Cache push-event handlers (src/contexts/TaskContext.tsx 72–91) -/

/-- `onTaskCreated` handler: append unless a task with the same id exists. -/
def onTaskCreated (task : Task) (prev : List Task) : List Task :=
  if prev.any (fun t => t.id = task.id) then prev else prev ++ [task]

/-- `onTaskUpdated` handler: replace-by-id via `prev.map`. -/
def onTaskUpdated (updatedTask : Task) (prev : List Task) : List Task :=
  prev.map (fun task => if task.id = updatedTask.id then updatedTask else task)

/-- `onTaskDeleted` handler: remove-by-id via `prev.filter`. -/
def onTaskDeleted (taskId : String) (prev : List Task) : List Task :=
  prev.filter (fun task => task.id ≠ taskId)

/-! ## The 401 refresh-and-retry protocol (`executeRequest` / `refreshTokens`)

The environment abstracts `fetch`: it fixes the response of the original
attempt, of the one possible retry, and of the refresh endpoint.  The
Authorization header only influences what the remote replies, which the
environment already fixes, so the header construction is not re-modelled.
The message the source extracts from a failed response's body
(`raw.message || raw.error || 'Request failed'` for JSON, `String(raw)`
otherwise) is abstracted as the response's `body` field. -/

/-- An HTTP response as `executeRequest` consumes it: status plus the body
(respectively the message extracted from the body on failure). -/
structure HttpResponse where
  status : Nat
  body : String

/-- Environment of one `executeRequest` call chain: the original attempt's
response, the retried attempt's response, the refresh endpoint's response
and the token pair carried by a successful refresh body. -/
structure FetchEnv where
  first : HttpResponse
  retry : HttpResponse
  refresh : HttpResponse
  newAccess : String
  newRefresh : String

/-- The `ApiService` instance state visible to the retry protocol: storage,
the `window.dispatchEvent` log, the `isRefreshing` flag, and two ghost
counters of how many requests were fetched (of the caller's endpoint, and of
`/auth/refresh`). -/
structure ClientState where
  store : Store
  events : List String
  isRefreshing : Bool
  mainRequests : Nat
  refreshRequests : Nat

/-- `ApiService.refreshTokens` (api.ts 85–137) as run by one sequential
request chain.  The `isRefreshing` fast path (subscribe and await the
in-flight refresh) cannot occur inside a single sequential call chain — the
flag is reset in `finally` before control returns to `executeRequest` — and
is modelled by the concurrency machine `RefreshSys` below; here the branch
returns `false` with no effect and every theorem starts from
`isRefreshing = false`, keeping it unreachable.  The guard on the stored
refresh token is JS truthiness (`if (!refreshToken)`).  A thrown network
error in the refresh `fetch` takes the same `return false` path as a non-ok
response (via `catch`), so the environment models both as a non-2xx
`refresh` status.  The flag is set on entry and reset by `finally` before
control returns, so every sequential result carries `isRefreshing = false`;
the transient `true` value is observable only by concurrent callers, which
`RefreshSys` models. -/
def refreshTokens (env : FetchEnv) (s : ClientState) : Bool × ClientState :=
  if s.isRefreshing then
    (false, s)
  else if truthy (getItem s.store REFRESH_TOKEN) = false then
    (false, { s with isRefreshing := false })
  else if statusOk env.refresh.status then
    (true,
      { s with
          store := setItem (setItem s.store AUTH_TOKEN env.newAccess)
            REFRESH_TOKEN env.newRefresh,
          isRefreshing := false,
          refreshRequests := s.refreshRequests + 1 })
  else
    (false,
      { s with isRefreshing := false,
               refreshRequests := s.refreshRequests + 1 })

/-- The response `fetch` yields for the attempt at hand: the retried attempt
observes `env.retry`, the original one `env.first`. -/
def attemptResponse (env : FetchEnv) (isRetry : Bool) : HttpResponse :=
  if isRetry then env.retry else env.first

/-- `ApiService.executeRequest` (api.ts 35–83).  Issues the attempt fixed by
`isRetry` (counted in `mainRequests`); on a 401 of a non-retried,
non-auth-skipped, non-refresh-endpoint request it refreshes and either
re-issues the request once with `isRetry = true` or — when the refresh
failed — performs the local logout, emits one `auth:logout` event and
rethrows the original error.  Every other non-2xx response throws its
extracted message. -/
def executeRequest (env : FetchEnv) (endpoint : String) (skipAuth : Bool)
    (isRetry : Bool) (s : ClientState) : Except String String × ClientState :=
  if statusOk (attemptResponse env isRetry).status then
    (.ok (attemptResponse env isRetry).body,
      { s with mainRequests := s.mainRequests + 1 })
  else
    if h : (attemptResponse env isRetry).status = 401 ∧ isRetry = false ∧
        skipAuth = false ∧ endpoint ≠ "/auth/refresh" then
      match refreshTokens env { s with mainRequests := s.mainRequests + 1 } with
      | (true, s2) => executeRequest env endpoint skipAuth true s2
      | (false, s2) =>
        (.error (attemptResponse env isRetry).body,
          { s2 with
              store := logoutStore s2.store,
              events := s2.events ++ ["auth:logout"] })
    else
      (.error (attemptResponse env isRetry).body,
        { s with mainRequests := s.mainRequests + 1 })
termination_by (if isRetry then 0 else 1 : Nat)
decreasing_by
  simp [h.2.1]

/-- `ApiService.request` (api.ts 27–33): a top-level call enters
`executeRequest` with `isRetry = false`. -/
def request (env : FetchEnv) (endpoint : String) (skipAuth : Bool)
    (s : ClientState) : Except String String × ClientState :=
  executeRequest env endpoint skipAuth false s

/-! ## Concurrent refresh: the single-flight subscriber machine

`refreshTokens` under concurrency: the first caller that finds
`isRefreshing = false` becomes the leader, sets the flag and issues the one
`fetch` of `/auth/refresh` (a refresh token is present in the expiry-window
scenario modelled here); every caller that enters while the flag is set
pushes a callback onto `refreshSubscribers` and issues no fetch.  When the
leader's fetch completes successfully it stores the new tokens, fires every
queued callback with the fresh access token (resolving those promises
`true`), empties the queue and resolves itself `true`; when it fails, the
leader resolves itself `false` and — this is the source's behaviour, see the
theorems — leaves the queue untouched without firing the callbacks.
`finally` clears the flag either way. -/

/-- State of the subscriber machine.  `resolved` records, in order, the
callers whose `refreshTokens` promise has settled, with the boolean outcome
each received; `subscribers` are the callers whose promise is still
pending; `fetches` counts requests that reached the refresh endpoint. -/
structure RefreshSys where
  isRefreshing : Bool
  subscribers : List Nat
  resolved : List (Nat × Bool)
  leader : Option Nat
  fetches : Nat
deriving DecidableEq

/-- Events of the subscriber machine: a caller invokes `refreshTokens`, or
the in-flight refresh fetch completes with the given outcome. -/
inductive RefreshEvent where
  | enter (cid : Nat)
  | finish (ok : Bool)

/-- Initial state: no refresh in flight. -/
def rinit : RefreshSys :=
  { isRefreshing := false, subscribers := [], resolved := [],
    leader := none, fetches := 0 }

/-- One step of the subscriber machine (see the module comment above for the
correspondence with api.ts 85–137). -/
def rstep (s : RefreshSys) : RefreshEvent → RefreshSys
  | .enter cid =>
    if s.isRefreshing then
      { s with subscribers := s.subscribers ++ [cid] }
    else
      { s with isRefreshing := true, leader := some cid,
               fetches := s.fetches + 1 }
  | .finish ok =>
    match s.leader with
    | none => s
    | some lid =>
      if ok then
        { isRefreshing := false, subscribers := [],
          resolved := s.resolved ++ s.subscribers.map (fun c => (c, true))
            ++ [(lid, true)],
          leader := none, fetches := s.fetches }
      else
        { s with isRefreshing := false, leader := none,
                 resolved := s.resolved ++ [(lid, false)] }

/-- Run the subscriber machine from the initial state. -/
def rrun (evs : List RefreshEvent) : RefreshSys :=
  evs.foldl rstep rinit

/-! ## Session Manager start-up (`AuthProvider.initializeAuth`) -/

/-- A cached user record as the auth provider sees it after `JSON.parse`. -/
structure UserRec where
  id : Nat
  email : String
  username : String
deriving DecidableEq

/-- The observable outcome of `AuthProvider.initializeAuth`: the resulting
session flag, user, token, the storage left behind, and whether the
WebSocket was connected. -/
structure AuthInit where
  isAuthenticated : Bool
  user : Option UserRec
  token : Option String
  store : Store
  wsConnected : Bool

/-- `AuthProvider.initializeAuth` (auth context, lines 44–76).  Reads the
three session keys; the guard is JS truthiness (`token && refreshToken &&
userData`), so `null` and `""` both fail it.  `JSON.parse` is the platform's
parser, abstracted as the `parse` argument; when it throws (`parse` returns
`none`), the `catch` arm clears the three keys, exactly like the `else` arm.
The name avoids a reserved token; the source method is `initializeAuth`. -/
def initAuth (parse : String → Option UserRec) (st : Store) : AuthInit :=
  let token := getItem st AUTH_TOKEN
  let refreshToken := getItem st REFRESH_TOKEN
  let userData := getItem st USER_DATA
  if truthy token && truthy refreshToken && truthy userData then
    match parse (userData.getD "") with
    | some u =>
      { isAuthenticated := true, user := some u, token := token,
        store := st, wsConnected := true }
    | none =>
      { isAuthenticated := false, user := none, token := none,
        store := removeItem (removeItem (removeItem st AUTH_TOKEN)
          REFRESH_TOKEN) USER_DATA,
        wsConnected := false }
  else
    { isAuthenticated := false, user := none, token := none,
      store := removeItem (removeItem (removeItem st AUTH_TOKEN)
        REFRESH_TOKEN) USER_DATA,
      wsConnected := false }

/-! ## REST environment and the list / default-project calls -/

/-- A project as returned by `/projects/`: only its id is consumed. -/
structure Project where
  id : Nat
deriving DecidableEq

/-- A team as returned by `/teams`: only its id is consumed. -/
structure Team where
  id : Nat
deriving DecidableEq

/-- Abstraction of the remote REST API for the calls made by `getTasks`,
`getUsers` and `getOrCreateDefaultProjectId`.  Each field is the outcome of
one `this.request(endpoint)`: `.ok` carries the parsed body, `.error` the
message of the error the request threw. -/
structure RestEnv where
  tasksAll : Except String (List ApiTask)
  tasksByProject : Nat → Except String (List ApiTask)
  projectsList : Except String (List Project)
  teamsList : Except String (List Team)
  createProject : Nat → Except String Project
  usersList : Except String (List UserRec)
  currentUser : Except String (Option UserRec)

/-- The `catch` arm of `getOrCreateDefaultProjectId` (api.ts 437–445):
falls back to a generic message when the error's message is falsy, then
rethrows one of two fixed messages depending on whether the message mentions
"access" (case-insensitively) or "403". -/
def projectErrorMessage (msg : String) : String :=
  let message := if msg ≠ "" then msg else "Unable to create or access projects."
  if jsIncludes message.toLower "access" || jsIncludes message "403" then
    "You do not have access to the selected team. Please switch or join a team."
  else
    "Unable to create or access projects. Please ensure you have access to a team."

/-- `ApiService.getOrCreateDefaultProjectId` (api.ts 399–446).  Returns the
resolved id (or the thrown message), the updated storage, and a ghost log of
the endpoints it fetched (empty on the memoized fast path). -/
def getOrCreateDefaultProjectId (env : RestEnv) (st : Store) :
    Except String Nat × Store × List String :=
  let cached := getItem st DEFAULT_PROJECT_KEY
  if truthy cached then
    (.ok (jsNumber (cached.getD "")), st, [])
  else
    match env.projectsList with
    | .error e => (.error (projectErrorMessage e), st, ["/projects/"])
    | .ok projects =>
      match projects with
      | p :: _ =>
        (.ok p.id, setItem st DEFAULT_PROJECT_KEY (toString p.id), ["/projects/"])
      | [] =>
        match env.teamsList with
        | .error e => (.error (projectErrorMessage e), st, ["/projects/", "/teams"])
        | .ok [] =>
          (.error (projectErrorMessage
              "No teams available. Please create or join a team first."),
            st, ["/projects/", "/teams"])
        | .ok (t :: _) =>
          match env.createProject t.id with
          | .error e =>
            (.error (projectErrorMessage e), st,
              ["/projects/", "/teams", "/projects/"])
          | .ok created =>
            (.ok created.id,
              setItem st DEFAULT_PROJECT_KEY (toString created.id),
              ["/projects/", "/teams", "/projects/"])

/-- `ApiService.getUsers` (api.ts 213–225): on a `/users` failure, fall back
to `/auth/me` (wrapping the current user as a singleton, or `[]` when its
`data` is falsy); if the fallback also fails, rethrow the original error. -/
def getUsers (env : RestEnv) : Except String (List UserRec) :=
  match env.usersList with
  | .ok us => .ok us
  | .error err =>
    match env.currentUser with
    | .ok (some me) => .ok [me]
    | .ok none => .ok []
    | .error _ => .error err

/-- The message thrown by `getTasks`'s inner `catch` when the project-scoped
fallback fails with a team-related error (api.ts 248). -/
def noTeamsMsg : String :=
  "No teams available. Please contact an administrator to create a team first."

/-- The outer `catch` of `getTasks` (api.ts 254–265): rethrow team-related
errors, degrade everything else to an empty list. -/
def getTasksOuterCatch (e : String) (st : Store) (log : List String) :
    Except String (List Task) × Store × List String :=
  if jsIncludes e "team" then (.error e, st, log) else (.ok [], st, log)

/-- `ApiService.getTasks` (api.ts 232–266).  Fetch `/tasks`; when the result
is empty, resolve the default project and retry scoped to it; the inner
`catch` swallows non-team-related fallback errors (leaving the empty list)
and converts team-related ones to `noTeamsMsg`, which the outer `catch`
rethrows.  Returns the outcome, the updated storage, and a ghost log of the
endpoints fetched. -/
def getTasks (env : RestEnv) (st : Store) :
    Except String (List Task) × Store × List String :=
  match env.tasksAll with
  | .error e => getTasksOuterCatch e st ["/tasks"]
  | .ok apiTasks =>
    let tasks := apiTasks.map mapTaskFromApi
    if tasks.length = 0 then
      match getOrCreateDefaultProjectId env st with
      | (.error pe, st1, log1) =>
        if jsIncludes pe "team" then
          getTasksOuterCatch noTeamsMsg st1 ("/tasks" :: log1)
        else
          (.ok tasks, st1, "/tasks" :: log1)
      | (.ok pid, st1, log1) =>
        match env.tasksByProject pid with
        | .error pe =>
          if jsIncludes pe "team" then
            getTasksOuterCatch noTeamsMsg st1
              ("/tasks" :: log1 ++ ["/tasks?project_id"])
          else
            (.ok tasks, st1, "/tasks" :: log1 ++ ["/tasks?project_id"])
        | .ok apiTasks2 =>
          (.ok (apiTasks2.map mapTaskFromApi), st1,
            "/tasks" :: log1 ++ ["/tasks?project_id"])
    else
      (.ok tasks, st, ["/tasks"])

end TeamApp

namespace TeamApp

/-! ## Theorems -/

/-- C3: the status vocabularies round-trip: `mapStatusFromApi ∘ mapStatusToApi`
is the identity on the three UI labels, and `mapStatusToApi ∘ mapStatusFromApi`
is the identity on the three API values. -/
theorem status_roundtrip :
    mapStatusFromApi (mapStatusToApi "To Do") = some "To Do" ∧
    mapStatusFromApi (mapStatusToApi "In Progress") = some "In Progress" ∧
    mapStatusFromApi (mapStatusToApi "Done") = some "Done" ∧
    (mapStatusFromApi "todo").map mapStatusToApi = some "todo" ∧
    (mapStatusFromApi "in_progress").map mapStatusToApi = some "in_progress" ∧
    (mapStatusFromApi "done").map mapStatusToApi = some "done" := by
  decide

/-- C4 counterexample: the unrecognised API status `"blocked"` does not map to
`"To Do"` on the inbound path — `mapStatusFromApi` returns `none` (the source
returns `undefined`: its switch has no `default` arm), both directly and
through `mapTaskFromApi`. -/
theorem unknown_status_not_todo :
    mapStatusFromApi "blocked" ≠ some "To Do" ∧
    (mapTaskFromApi ⟨1, "t", none, "blocked", none, 2, none, "c", none⟩).status
      ≠ some "To Do" := by
  decide

/-- C4 amended: an inbound task whose status is not one of `todo`,
`in_progress`, `done` gets no UI status at all (`undefined` in the source,
`none` here), not the default `"To Do"` claimed by the spec; the
default-to-`todo` arm exists only on the outbound `mapStatusToApi`. -/
theorem unknown_status_maps_to_none (t : ApiTask)
    (h1 : t.status ≠ "todo") (h2 : t.status ≠ "in_progress")
    (h3 : t.status ≠ "done") :
    mapStatusFromApi t.status = none ∧ (mapTaskFromApi t).status = none := by
  have hs : mapStatusFromApi t.status = none := by
    simp [mapStatusFromApi, h1, h2, h3]
  exact ⟨hs, by simp [mapTaskFromApi, hs]⟩

/-- Witness for `unknown_status_maps_to_none` at a concrete task. -/
theorem unknown_status_maps_to_none_witness :
    mapStatusFromApi "blocked!" = none ∧
    (mapTaskFromApi
        ⟨7, "w", some "d", "blocked!", some 3, 2, some 5, "c", some "u"⟩).status
      = none :=
  unknown_status_maps_to_none
    ⟨7, "w", some "d", "blocked!", some 3, 2, some 5, "c", some "u"⟩
    (by decide) (by decide) (by decide)

/-- C5: the `onTaskUpdated` replace-by-id handler is idempotent: applying the
same task-updated push event twice leaves the task cache exactly as applying
it once. -/
theorem task_updated_idempotent (u : Task) (l : List Task) :
    onTaskUpdated u (onTaskUpdated u l) = onTaskUpdated u l := by
  induction l with
  | nil => rfl
  | cons x xs ih =>
    simp only [onTaskUpdated, List.map_cons] at ih ⊢
    rw [ih]
    by_cases h : x.id = u.id
    · simp [h]
    · simp [h]

/-- Helper: replace-by-id is a no-op on a list that has no task with the
event's id. -/
theorem onTaskUpdated_noop (u : Task) (l : List Task)
    (h : ∀ t ∈ l, t.id ≠ u.id) :
    onTaskUpdated u l = l := by
  induction l with
  | nil => rfl
  | cons x xs ih =>
    have hx : x.id ≠ u.id := h x (List.mem_cons_self x xs)
    have ih' := ih (fun t ht => h t (List.mem_cons_of_mem x ht))
    simp only [onTaskUpdated, List.map_cons] at ih' ⊢
    rw [if_neg hx, ih']

/-- C6: a task-updated push event for an id absent from the cache leaves the
cache unchanged; in particular, after the task-deleted handler removed that
id, a stale update event does not re-insert the deleted task. -/
theorem stale_update_does_not_resurrect (u : Task) (l : List Task)
    (h : ∀ t ∈ l, t.id ≠ u.id) :
    onTaskUpdated u l = l ∧
    onTaskUpdated u (onTaskDeleted u.id l) = onTaskDeleted u.id l := by
  refine ⟨onTaskUpdated_noop u l h, onTaskUpdated_noop u _ ?_⟩
  intro t ht
  have := List.of_mem_filter ht
  simpa using this

/-- Helper: removing a key hides exactly that key and nothing else. -/
theorem getItem_removeItem (st : Store) (k k' : String) :
    getItem (removeItem st k') k = if k = k' then none else getItem st k := by
  induction st with
  | nil => simp [getItem, removeItem]
  | cons p ps ih =>
    by_cases hp : p.1 = k'
    · have hrm : removeItem (p :: ps) k' = removeItem ps k' := by
        simp [removeItem, List.filter_cons, hp]
      rw [hrm, ih]
      by_cases hk : k = k'
      · simp [hk]
      · have hpk : p.1 ≠ k := by rw [hp]; exact fun h => hk h.symm
        simp [getItem, List.find?, hpk, hk]
    · have hrm : removeItem (p :: ps) k' = p :: removeItem ps k' := by
        simp [removeItem, List.filter_cons, hp]
      rw [hrm]
      by_cases hk : p.1 = k
      · have hkk : k ≠ k' := fun h => hp ((hk.trans h))
        simp [getItem, List.find?, hk, hkk]
      · have ih' := ih
        simp only [getItem] at ih'
        simp only [getItem, List.find?, hk, decide_False]
        rw [ih']

/-- Helper: `logoutStore` clears the three session keys. -/
theorem logoutStore_clears (st : Store) :
    getItem (logoutStore st) AUTH_TOKEN = none ∧
    getItem (logoutStore st) REFRESH_TOKEN = none ∧
    getItem (logoutStore st) USER_DATA = none := by
  have h1 : AUTH_TOKEN ≠ USER_DATA := by decide
  have h2 : AUTH_TOKEN ≠ REFRESH_TOKEN := by decide
  have h3 : REFRESH_TOKEN ≠ USER_DATA := by decide
  simp [logoutStore, getItem_removeItem, h1, h2, h3]

/-- Helper: `logoutStore` does not touch keys other than the three session
keys. -/
theorem logoutStore_frame (st : Store) (k : String)
    (hk1 : k ≠ AUTH_TOKEN) (hk2 : k ≠ REFRESH_TOKEN) (hk3 : k ≠ USER_DATA) :
    getItem (logoutStore st) k = getItem st k := by
  simp [logoutStore, getItem_removeItem, hk1, hk2, hk3]

/-- Witness for `stale_update_does_not_resurrect` at a concrete cache. -/
theorem stale_update_does_not_resurrect_witness :
    onTaskUpdated
        ⟨"10", "stale", "", some "Done", "Medium", none, "1", "c", none, []⟩
        [⟨"11", "keep", "", some "To Do", "Medium", none, "1", "c", none, []⟩] =
      [⟨"11", "keep", "", some "To Do", "Medium", none, "1", "c", none, []⟩] :=
  (stale_update_does_not_resurrect
    ⟨"10", "stale", "", some "Done", "Medium", none, "1", "c", none, []⟩
    [⟨"11", "keep", "", some "To Do", "Medium", none, "1", "c", none, []⟩]
    (by decide)).1

/-- C1 (evidence for the code bug): in the trace where caller 0 starts a
refresh, caller 1 subscribes while it is in flight, and the refresh fails,
exactly one fetch reached the refresh endpoint — the claim's single-flight
half holds — but the waiting caller is never released: only the leader's
promise resolves (negatively) and caller 1 stays queued, its promise still
pending.  Extending the trace shows the stranded subscriber is resolved only
by a later, unrelated refresh, and then with `true`, not with the outcome of
the refresh it was waiting on. -/
theorem failed_refresh_strands_subscribers :
    (rrun [.enter 0, .enter 1, .finish false]).fetches = 1 ∧
    (rrun [.enter 0, .enter 1, .finish false]).resolved = [(0, false)] ∧
    (rrun [.enter 0, .enter 1, .finish false]).subscribers = [1] ∧
    (rrun [.enter 0, .enter 1, .finish false, .enter 2, .finish true]).resolved
      = [(0, false), (1, true), (2, true)] := by
  decide

/-- Helper: the retried attempt observes `env.retry`. -/
theorem attemptResponse_retry (env : FetchEnv) :
    attemptResponse env true = env.retry := rfl

/-- Helper: the original attempt observes `env.first`. -/
theorem attemptResponse_first (env : FetchEnv) :
    attemptResponse env false = env.first := rfl

/-- Helper: `refreshTokens` never issues a request of the caller's endpoint
and never touches the event log. -/
theorem refreshTokens_frame (env : FetchEnv) (s : ClientState) :
    (refreshTokens env s).2.mainRequests = s.mainRequests ∧
    (refreshTokens env s).2.events = s.events := by
  unfold refreshTokens
  by_cases h0 : s.isRefreshing = true
  · rw [if_pos h0]; exact ⟨rfl, rfl⟩
  · rw [if_neg h0]
    by_cases ht : truthy (getItem s.store REFRESH_TOKEN) = false
    · rw [if_pos ht]; exact ⟨rfl, rfl⟩
    · rw [if_neg ht]
      by_cases hs : statusOk env.refresh.status = true
      · rw [if_pos hs]; exact ⟨rfl, rfl⟩
      · rw [if_neg hs]; exact ⟨rfl, rfl⟩

/-- Helper: when the refresh endpoint does not answer 2xx, a sequential
`refreshTokens` run from a quiescent state returns `false` and leaves
storage and the event log unchanged. -/
theorem refreshTokens_fail (env : FetchEnv) (s : ClientState)
    (h0 : s.isRefreshing = false)
    (hfail : statusOk env.refresh.status = false) :
    (refreshTokens env s).1 = false ∧
    (refreshTokens env s).2.store = s.store ∧
    (refreshTokens env s).2.events = s.events := by
  unfold refreshTokens
  rw [if_neg (by simp [h0])]
  by_cases ht : truthy (getItem s.store REFRESH_TOKEN) = false
  · rw [if_pos ht]
    exact ⟨rfl, rfl, rfl⟩
  · rw [if_neg ht, if_neg (by simp [hfail])]
    exact ⟨rfl, rfl, rfl⟩

/-- Helper: a retried call (`isRetry = true`) issues exactly one more
request, never calls the refresh endpoint, and surfaces a non-2xx response
(for example a second 401) as the thrown error. -/
theorem executeRequest_retry_aux (env : FetchEnv) (endpoint : String)
    (skipAuth : Bool) (s : ClientState) :
    (executeRequest env endpoint skipAuth true s).2.mainRequests
      = s.mainRequests + 1 ∧
    (executeRequest env endpoint skipAuth true s).2.refreshRequests
      = s.refreshRequests ∧
    (statusOk env.retry.status = false →
      (executeRequest env endpoint skipAuth true s).1
        = .error env.retry.body) := by
  rw [executeRequest, attemptResponse_retry]
  by_cases hok : statusOk env.retry.status = true
  · rw [if_pos hok]
    exact ⟨rfl, rfl, fun hf => absurd hok (by simp [hf])⟩
  · rw [if_neg hok, dif_neg (by simp)]
    exact ⟨rfl, rfl, fun _ => rfl⟩

/-- C2: the retry recursion terminates after at most one retry.  A call that
enters with `isRetry = true` issues exactly one request, makes no refresh
call, and surfaces a second 401 (any non-2xx) as a failure instead of
retrying again; consequently a top-level call (`isRetry = false`) issues at
most two requests of its endpoint in total. -/
theorem retry_at_most_once (env : FetchEnv) (endpoint : String)
    (skipAuth : Bool) (s : ClientState) :
    (executeRequest env endpoint skipAuth true s).2.refreshRequests
      = s.refreshRequests ∧
    (executeRequest env endpoint skipAuth true s).2.mainRequests
      = s.mainRequests + 1 ∧
    (statusOk env.retry.status = false →
      (executeRequest env endpoint skipAuth true s).1
        = .error env.retry.body) ∧
    (executeRequest env endpoint skipAuth false s).2.mainRequests
      ≤ s.mainRequests + 2 := by
  obtain ⟨ha, hb, hc⟩ := executeRequest_retry_aux env endpoint skipAuth s
  refine ⟨hb, ha, hc, ?_⟩
  rw [executeRequest, attemptResponse_first]
  by_cases hok : statusOk env.first.status = true
  · rw [if_pos hok]
    exact show s.mainRequests + 1 ≤ s.mainRequests + 2 by omega
  · rw [if_neg hok]
    by_cases hcond : env.first.status = 401 ∧ (false : Bool) = false ∧
        skipAuth = false ∧ endpoint ≠ "/auth/refresh"
    · rw [dif_pos hcond]
      rcases hr : refreshTokens env
          { s with mainRequests := s.mainRequests + 1 } with ⟨b, s2⟩
      have hm2 : s2.mainRequests = s.mainRequests + 1 := by
        have h := (refreshTokens_frame env
          { s with mainRequests := s.mainRequests + 1 }).1
        rw [hr] at h
        exact h
      cases b
      · simp only [hr]
        omega
      · simp only [hr]
        have h := (executeRequest_retry_aux env endpoint skipAuth s2).1
        omega
    · rw [dif_neg hcond]
      exact show s.mainRequests + 1 ≤ s.mainRequests + 2 by omega

/-- Witness for `retry_at_most_once`: a concrete environment answering 401
to the retried attempt — the retry surfaces the failure and no refresh call
is made. -/
theorem retry_at_most_once_witness :
    (executeRequest ⟨⟨401, "unauthorized"⟩, ⟨401, "unauthorized again"⟩,
        ⟨200, "r"⟩, "na", "nr"⟩ "/tasks" false true
        ⟨[], [], false, 0, 0⟩).2.refreshRequests = 0 ∧
    (executeRequest ⟨⟨401, "unauthorized"⟩, ⟨401, "unauthorized again"⟩,
        ⟨200, "r"⟩, "na", "nr"⟩ "/tasks" false true
        ⟨[], [], false, 0, 0⟩).1 = .error "unauthorized again" := by
  have h := retry_at_most_once
    ⟨⟨401, "unauthorized"⟩, ⟨401, "unauthorized again"⟩, ⟨200, "r"⟩, "na", "nr"⟩
    "/tasks" false ⟨[], [], false, 0, 0⟩
  exact ⟨h.1, h.2.2.1 (by decide)⟩

/-- C7: a non-auth-skipped request to an endpoint other than the refresh
endpoint that receives a 401, followed by a failing token refresh, surfaces
the original error to its caller (the error is rethrown, not swallowed),
removes all three session keys from storage, and emits exactly one
`auth:logout` event. -/
theorem failed_refresh_surfaces_error_and_logs_out (env : FetchEnv)
    (endpoint : String) (s : ClientState)
    (hep : endpoint ≠ "/auth/refresh")
    (hrf : s.isRefreshing = false)
    (h401 : env.first.status = 401)
    (hfail : statusOk env.refresh.status = false) :
    (executeRequest env endpoint false false s).1 = .error env.first.body ∧
    getItem (executeRequest env endpoint false false s).2.store
      AUTH_TOKEN = none ∧
    getItem (executeRequest env endpoint false false s).2.store
      REFRESH_TOKEN = none ∧
    getItem (executeRequest env endpoint false false s).2.store
      USER_DATA = none ∧
    (executeRequest env endpoint false false s).2.events
      = s.events ++ ["auth:logout"] := by
  have hok : statusOk env.first.status = false := by
    rw [h401]; decide
  rw [executeRequest, attemptResponse_first]
  rw [if_neg (by simp [hok])]
  rw [dif_pos ⟨h401, rfl, rfl, hep⟩]
  have hfl := refreshTokens_fail env
    { s with mainRequests := s.mainRequests + 1 } hrf hfail
  rcases hr : refreshTokens env
      { s with mainRequests := s.mainRequests + 1 } with ⟨b, s2⟩
  rw [hr] at hfl
  have hb : b = false := hfl.1
  have hev : s2.events = s.events := hfl.2.2
  subst hb
  simp only [hr]
  have hcl := logoutStore_clears s2.store
  exact ⟨trivial, hcl.1, hcl.2.1, hcl.2.2, by rw [hev]⟩

/-- Witness for `failed_refresh_surfaces_error_and_logs_out` at a concrete
session: the 401'd call fails, storage is purged, one logout event fires. -/
theorem failed_refresh_surfaces_error_and_logs_out_witness :
    (executeRequest ⟨⟨401, "expired"⟩, ⟨200, "ok"⟩, ⟨401, "bad refresh"⟩,
        "na", "nr"⟩ "/tasks" false false
        ⟨[(AUTH_TOKEN, "t"), (REFRESH_TOKEN, "r"), (USER_DATA, "u")],
          [], false, 0, 0⟩).1 = .error "expired" ∧
    (executeRequest ⟨⟨401, "expired"⟩, ⟨200, "ok"⟩, ⟨401, "bad refresh"⟩,
        "na", "nr"⟩ "/tasks" false false
        ⟨[(AUTH_TOKEN, "t"), (REFRESH_TOKEN, "r"), (USER_DATA, "u")],
          [], false, 0, 0⟩).2.events = ["auth:logout"] := by
  have h := failed_refresh_surfaces_error_and_logs_out
    ⟨⟨401, "expired"⟩, ⟨200, "ok"⟩, ⟨401, "bad refresh"⟩, "na", "nr"⟩
    "/tasks"
    ⟨[(AUTH_TOKEN, "t"), (REFRESH_TOKEN, "r"), (USER_DATA, "u")],
      [], false, 0, 0⟩
    (by decide) rfl rfl (by decide)
  exact ⟨h.1, h.2.2.2.2⟩

/-- C8 counterexample: a storage state in which all three session keys are
present (the cached user record is the empty string) yields an
unauthenticated session, because the source guard uses JS truthiness, under
which a present-but-empty value counts as absent.  The parser is immaterial
here (it is never reached), so even an always-succeeding parse is used. -/
theorem all_keys_present_yet_unauthenticated :
    ((getItem [(AUTH_TOKEN, "t"), (REFRESH_TOKEN, "r"), (USER_DATA, "")]
        AUTH_TOKEN).isSome ∧
      (getItem [(AUTH_TOKEN, "t"), (REFRESH_TOKEN, "r"), (USER_DATA, "")]
        REFRESH_TOKEN).isSome ∧
      (getItem [(AUTH_TOKEN, "t"), (REFRESH_TOKEN, "r"), (USER_DATA, "")]
        USER_DATA).isSome) ∧
    (initAuth (fun s => some ⟨0, s, s⟩)
        [(AUTH_TOKEN, "t"), (REFRESH_TOKEN, "r"), (USER_DATA, "")]
      ).isAuthenticated = false := by
  decide

/-- C8 amended: on start-up the session becomes authenticated iff all three
of access token, refresh token and cached user record are present *and
non-empty* in storage and the user record parses; in every other case the
resulting state is unauthenticated and all three keys are removed, and in the
authenticated case storage is left untouched. -/
theorem initAuth_characterisation (parse : String → Option UserRec)
    (st : Store) :
    ((initAuth parse st).isAuthenticated = true ↔
      truthy (getItem st AUTH_TOKEN) = true ∧
      truthy (getItem st REFRESH_TOKEN) = true ∧
      truthy (getItem st USER_DATA) = true ∧
      (parse ((getItem st USER_DATA).getD "")).isSome = true) ∧
    ((initAuth parse st).isAuthenticated = false →
      getItem (initAuth parse st).store AUTH_TOKEN = none ∧
      getItem (initAuth parse st).store REFRESH_TOKEN = none ∧
      getItem (initAuth parse st).store USER_DATA = none) ∧
    ((initAuth parse st).isAuthenticated = true →
      (initAuth parse st).store = st) := by
  have hclear := logoutStore_clears st
  simp only [logoutStore] at hclear
  unfold initAuth
  by_cases hc : (truthy (getItem st AUTH_TOKEN) &&
      truthy (getItem st REFRESH_TOKEN) && truthy (getItem st USER_DATA)) = true
  · rw [if_pos hc]
    simp only [Bool.and_eq_true] at hc
    cases hparse : parse ((getItem st USER_DATA).getD "") with
    | none => simp [hc, hparse, hclear.1, hclear.2.1, hclear.2.2]
    | some u => simp [hc.1.1, hc.1.2, hc.2, hparse]
  · rw [if_neg hc]
    simp only [Bool.and_eq_true, not_and] at hc
    constructor
    · simp only [Bool.false_eq_true, false_iff]
      rintro ⟨h1, h2, h3, -⟩
      exact hc ⟨h1, h2⟩ h3
    · exact ⟨fun _ => ⟨hclear.1, hclear.2.1, hclear.2.2⟩, by simp⟩

/-- Witness for `initAuth_characterisation`: a storage with only the access
token present ends unauthenticated with the access token purged. -/
theorem initAuth_characterisation_witness :
    getItem (initAuth (fun _ => some ⟨1, "e", "u"⟩)
        [(AUTH_TOKEN, "t")]).store AUTH_TOKEN = none :=
  ((initAuth_characterisation (fun _ => some ⟨1, "e", "u"⟩)
    [(AUTH_TOKEN, "t")]).2.1 (by decide)).1

/-- C9 counterexample: the read-only list calls *can* propagate an error.
`getUsers` rethrows the original `/users` error when the `/auth/me` fallback
also fails, and `getTasks` rethrows team-related errors instead of degrading
to an empty list. -/
theorem list_calls_can_propagate_errors :
    getUsers ⟨.ok [], fun _ => .ok [], .ok [], .ok [], fun _ => .ok ⟨1⟩,
        .error "network down", .error "me down"⟩ = .error "network down" ∧
    (getTasks ⟨.error "No teams available", fun _ => .ok [], .ok [], .ok [],
        fun _ => .ok ⟨1⟩, .ok [], .ok none⟩ []).1 =
      .error "No teams available" :=
  ⟨rfl, rfl⟩

/-- C9 amended: the read-only list calls degrade on failure rather than
blocking the board, but not always to an empty collection and not
unconditionally.  `getUsers`: a successful `/users` call passes its list
through; on a `/users` failure the `/auth/me` fallback yields the singleton
current user, or `[]` when its data is null; an error propagates exactly
when the fallback also fails, and then it is the original `/users` error.
`getTasks`: a non-empty `/tasks` result passes through mapped, as does a
successful project-scoped fallback after an empty result; every
non-team-related failure degrades to the empty list; exactly the
team-related failures (message mentioning "team") propagate — a team-related
`/tasks` error verbatim, and a team-related failure of the default-project
resolution or of the scoped fallback as the fixed `noTeamsMsg`. -/
theorem list_calls_degrade (env : RestEnv) (st : Store) :
    (∀ us, env.usersList = .ok us → getUsers env = .ok us) ∧
    (∀ e me, env.usersList = .error e → env.currentUser = .ok (some me) →
      getUsers env = .ok [me]) ∧
    (∀ e, env.usersList = .error e → env.currentUser = .ok none →
      getUsers env = .ok []) ∧
    (∀ e e2, env.usersList = .error e → env.currentUser = .error e2 →
      getUsers env = .error e) ∧
    (∀ e, getUsers env = .error e →
      env.usersList = .error e ∧ ∃ e2, env.currentUser = .error e2) ∧
    (∀ e, env.tasksAll = .error e → jsIncludes e "team" = true →
      (getTasks env st).1 = .error e) ∧
    (∀ e, env.tasksAll = .error e → jsIncludes e "team" = false →
      (getTasks env st).1 = .ok []) ∧
    (∀ l, env.tasksAll = .ok l → l ≠ [] →
      (getTasks env st).1 = .ok (l.map mapTaskFromApi)) ∧
    (∀ pe, env.tasksAll = .ok [] →
      (getOrCreateDefaultProjectId env st).1 = .error pe →
      jsIncludes pe "team" = true → (getTasks env st).1 = .error noTeamsMsg) ∧
    (∀ pe, env.tasksAll = .ok [] →
      (getOrCreateDefaultProjectId env st).1 = .error pe →
      jsIncludes pe "team" = false → (getTasks env st).1 = .ok []) ∧
    (∀ pid pe, env.tasksAll = .ok [] →
      (getOrCreateDefaultProjectId env st).1 = .ok pid →
      env.tasksByProject pid = .error pe →
      jsIncludes pe "team" = true → (getTasks env st).1 = .error noTeamsMsg) ∧
    (∀ pid pe, env.tasksAll = .ok [] →
      (getOrCreateDefaultProjectId env st).1 = .ok pid →
      env.tasksByProject pid = .error pe →
      jsIncludes pe "team" = false → (getTasks env st).1 = .ok []) ∧
    (∀ pid l2, env.tasksAll = .ok [] →
      (getOrCreateDefaultProjectId env st).1 = .ok pid →
      env.tasksByProject pid = .ok l2 →
      (getTasks env st).1 = .ok (l2.map mapTaskFromApi)) ∧
    (∀ e, (getTasks env st).1 = .error e → jsIncludes e "team" = true) := by
  have hnoteams : jsIncludes noTeamsMsg "team" = true := by decide
  refine ⟨?_, ?_, ?_, ?_, ?_, ?_, ?_, ?_, ?_, ?_, ?_, ?_, ?_, ?_⟩
  · intro us h
    unfold getUsers
    rw [h]
  · intro e me h1 h2
    unfold getUsers
    rw [h1, h2]
  · intro e h1 h2
    unfold getUsers
    rw [h1, h2]
  · intro e e2 h1 h2
    unfold getUsers
    rw [h1, h2]
  · intro e he
    unfold getUsers at he
    cases hu : env.usersList with
    | ok us => rw [hu] at he; exact absurd he (by simp)
    | error err =>
      rw [hu] at he
      cases hm : env.currentUser with
      | ok me =>
        rw [hm] at he
        cases me with
        | none => exact absurd he (by simp)
        | some m => exact absurd he (by simp)
      | error e2 =>
        rw [hm] at he
        simp only [Except.error.injEq] at he
        subst he
        exact ⟨rfl, ⟨e2, rfl⟩⟩
  · intro e h ht
    unfold getTasks getTasksOuterCatch
    rw [h]
    simp [ht]
  · intro e h ht
    unfold getTasks getTasksOuterCatch
    rw [h]
    simp [ht]
  · intro l h hne
    unfold getTasks
    rw [h]
    simp [hne]
  · intro pe h hp ht
    rcases hg : getOrCreateDefaultProjectId env st with ⟨r, st1, log1⟩
    rw [hg] at hp
    have hr : r = .error pe := hp
    subst hr
    unfold getTasks getTasksOuterCatch
    rw [h]
    simp [hg, ht, hnoteams]
  · intro pe h hp ht
    rcases hg : getOrCreateDefaultProjectId env st with ⟨r, st1, log1⟩
    rw [hg] at hp
    have hr : r = .error pe := hp
    subst hr
    unfold getTasks getTasksOuterCatch
    rw [h]
    simp [hg, ht]
  · intro pid pe h hp htp ht
    rcases hg : getOrCreateDefaultProjectId env st with ⟨r, st1, log1⟩
    rw [hg] at hp
    have hr : r = .ok pid := hp
    subst hr
    unfold getTasks getTasksOuterCatch
    rw [h]
    simp [hg, htp, ht, hnoteams]
  · intro pid pe h hp htp ht
    rcases hg : getOrCreateDefaultProjectId env st with ⟨r, st1, log1⟩
    rw [hg] at hp
    have hr : r = .ok pid := hp
    subst hr
    unfold getTasks getTasksOuterCatch
    rw [h]
    simp [hg, htp, ht]
  · intro pid l2 h hp htp
    rcases hg : getOrCreateDefaultProjectId env st with ⟨r, st1, log1⟩
    rw [hg] at hp
    have hr : r = .ok pid := hp
    subst hr
    unfold getTasks
    rw [h]
    simp [hg, htp]
  · intro e he
    unfold getTasks at he
    cases ht : env.tasksAll with
    | error e0 =>
      simp only [ht] at he
      unfold getTasksOuterCatch at he
      by_cases hteam : jsIncludes e0 "team" = true
      · rw [if_pos hteam] at he
        simp only [Except.error.injEq] at he
        rw [← he]; exact hteam
      · rw [if_neg hteam] at he
        exact absurd he (by simp)
    | ok apiTasks =>
      simp only [ht] at he
      by_cases hlen : (apiTasks.map mapTaskFromApi).length = 0
      · rw [if_pos hlen] at he
        rcases hp : getOrCreateDefaultProjectId env st with ⟨pid, st1, log1⟩
        cases pid with
        | error pe =>
          simp only [hp] at he
          by_cases hteam : jsIncludes pe "team" = true
          · rw [if_pos hteam] at he
            unfold getTasksOuterCatch at he
            rw [if_pos hnoteams] at he
            simp only [Except.error.injEq] at he
            rw [← he]; exact hnoteams
          · rw [if_neg hteam] at he
            exact absurd he (by simp)
        | ok pidv =>
          simp only [hp] at he
          cases htp : env.tasksByProject pidv with
          | error pe =>
            simp only [htp] at he
            by_cases hteam : jsIncludes pe "team" = true
            · rw [if_pos hteam] at he
              unfold getTasksOuterCatch at he
              rw [if_pos hnoteams] at he
              simp only [Except.error.injEq] at he
              rw [← he]; exact hnoteams
            · rw [if_neg hteam] at he
              exact absurd he (by simp)
          | ok apiTasks2 =>
            simp only [htp] at he
            exact absurd he (by simp)
      · rw [if_neg hlen] at he
        exact absurd he (by simp)

/-- Witness for `list_calls_degrade` at concrete environments: a `/users`
failure with a working `/auth/me` fallback degrades to the singleton current
user (not the empty list); when the fallback fails too, the original
`/users` error propagates; a team-related `/tasks` failure propagates; a
non-team-related one degrades to the empty list. -/
theorem list_calls_degrade_witness :
    getUsers ⟨.ok [], fun _ => .ok [], .ok [], .ok [], fun _ => .ok ⟨1⟩,
        .error "network down", .ok (some ⟨7, "a@b.com", "a"⟩)⟩
      = .ok [⟨7, "a@b.com", "a"⟩] ∧
    getUsers ⟨.ok [], fun _ => .ok [], .ok [], .ok [], fun _ => .ok ⟨1⟩,
        .error "network down", .error "me down"⟩ = .error "network down" ∧
    (getTasks ⟨.error "No teams available", fun _ => .ok [], .ok [], .ok [],
        fun _ => .ok ⟨1⟩, .ok [], .ok none⟩ []).1
      = .error "No teams available" ∧
    (getTasks ⟨.error "boom", fun _ => .ok [], .ok [], .ok [],
        fun _ => .ok ⟨1⟩, .ok [], .ok none⟩ []).1 = .ok [] := by
  refine ⟨?_, ?_, ?_, ?_⟩
  · exact (list_calls_degrade ⟨.ok [], fun _ => .ok [], .ok [], .ok [],
      fun _ => .ok ⟨1⟩, .error "network down",
      .ok (some ⟨7, "a@b.com", "a"⟩)⟩ []).2.1
      "network down" ⟨7, "a@b.com", "a"⟩ rfl rfl
  · exact (list_calls_degrade ⟨.ok [], fun _ => .ok [], .ok [], .ok [],
      fun _ => .ok ⟨1⟩, .error "network down", .error "me down"⟩ []).2.2.2.1
      "network down" "me down" rfl rfl
  · exact (list_calls_degrade ⟨.error "No teams available", fun _ => .ok [],
      .ok [], .ok [], fun _ => .ok ⟨1⟩, .ok [], .ok none⟩ []).2.2.2.2.2.1
      "No teams available" rfl (by decide)
  · exact (list_calls_degrade ⟨.error "boom", fun _ => .ok [],
      .ok [], .ok [], fun _ => .ok ⟨1⟩, .ok [], .ok none⟩ []).2.2.2.2.2.2.1
      "boom" rfl (by decide)

/-- C10: `logout` removes exactly the three session keys and leaves every
other stored key unchanged; in particular the memoized `default_project_id`
survives logout, and a subsequent `getOrCreateDefaultProjectId` returns the
previous session's id from the cache without touching storage or fetching
any endpoint. -/
theorem logout_frame_default_project_persists (st : Store) (k v : String)
    (env : RestEnv)
    (hk1 : k ≠ AUTH_TOKEN) (hk2 : k ≠ REFRESH_TOKEN) (hk3 : k ≠ USER_DATA)
    (hv : getItem st DEFAULT_PROJECT_KEY = some v) (hv0 : v ≠ "") :
    getItem (logoutStore st) k = getItem st k ∧
    getItem (logoutStore st) AUTH_TOKEN = none ∧
    getItem (logoutStore st) REFRESH_TOKEN = none ∧
    getItem (logoutStore st) USER_DATA = none ∧
    getItem (logoutStore st) DEFAULT_PROJECT_KEY = some v ∧
    getOrCreateDefaultProjectId env (logoutStore st) =
      (.ok (jsNumber v), logoutStore st, []) := by
  have hclear := logoutStore_clears st
  have hdp : getItem (logoutStore st) DEFAULT_PROJECT_KEY = some v := by
    rw [logoutStore_frame st DEFAULT_PROJECT_KEY (by decide) (by decide)
      (by decide), hv]
  refine ⟨logoutStore_frame st k hk1 hk2 hk3, hclear.1, hclear.2.1,
    hclear.2.2, hdp, ?_⟩
  unfold getOrCreateDefaultProjectId
  rw [hdp]
  simp [truthy, hv0]

/-- Witness for `logout_frame_default_project_persists` at a concrete
storage holding a session and a memoized default project id 42. -/
theorem logout_frame_default_project_persists_witness :
    getItem (logoutStore [(DEFAULT_PROJECT_KEY, "42"), (AUTH_TOKEN, "t")])
        DEFAULT_PROJECT_KEY = some "42" ∧
    getOrCreateDefaultProjectId
        ⟨.ok [], fun _ => .ok [], .ok [], .ok [], fun _ => .ok ⟨1⟩, .ok [],
          .ok none⟩
        (logoutStore [(DEFAULT_PROJECT_KEY, "42"), (AUTH_TOKEN, "t")]) =
      (.ok 42,
        logoutStore [(DEFAULT_PROJECT_KEY, "42"), (AUTH_TOKEN, "t")], []) := by
  have h := logout_frame_default_project_persists
    [(DEFAULT_PROJECT_KEY, "42"), (AUTH_TOKEN, "t")] "other" "42"
    ⟨.ok [], fun _ => .ok [], .ok [], .ok [], fun _ => .ok ⟨1⟩, .ok [],
      .ok none⟩
    (by decide) (by decide) (by decide) (by decide) (by decide)
  rw [show jsNumber "42" = 42 from by decide] at h
  exact ⟨h.2.2.2.2.1, h.2.2.2.2.2⟩

end TeamApp
